import Mathlib

/-!
Verification of the Native-Recorder audio-capture engine.

Shallow embedding of the capture pipeline of the repository:
  * `src/native/win/WASAPIEngine.cpp`   (Windows WASAPI backend)
  * `src/native/mac/SCKAudioCapture.mm` (macOS ScreenCaptureKit system-audio backend)
  * `src/native/mac/AVFEngine.mm`       (macOS AVFoundation microphone backend)
  * `src/native/AudioController.cpp`    (N-API binding layer)
  * `src/src/index.ts`                  (TypeScript `AudioRecorder` facade)

Modelling conventions:
  * IEEE-754 float32 samples are modelled as exact rationals (`ℚ`); the
    arithmetic performed by the code (clipping comparisons, division by a
    power of two, multiplication by 32767, C truncation cast to `int16_t`)
    is carried out exactly.  All concrete sample values used in theorems
    are exactly representable in float32 and their products/quotients by
    the powers of two involved are exact, so the rational model agrees
    with the float32 computation at every concrete input appearing below.
  * C/C++ machine integers are modelled as `ℕ`/`ℤ` with explicit
    reinterpretation (`toSigned32`) where a bit pattern crosses the
    signed/unsigned boundary.
  * OS objects (devices, mix formats, streams) are modelled as explicit
    parameters (`Option` for fallible lookups); OS calls that can fail are
    Boolean environment fields.
  * The asynchronous parts (producer thread, dispatch queues) are modelled
    as executable small-step machines over event traces.
-/

/-! ## Sample quantization (WASAPIEngine.cpp lines 386-402,
    SCKAudioCapture.mm lines 150-166 and 184-199) -/

/-- Truncation toward zero of a rational, the behaviour of the C cast
`(int16_t)(float)` for in-range values. -/
def ratTrunc (q : ℚ) : ℤ := if 0 ≤ q then ⌊q⌋ else -⌊-q⌋

/-- WASAPIEngine.cpp lines 390-395: sequential clip of a float sample to
`[-1, 1]` followed by `(int16_t)(sample * 32767.0f)`. -/
def wasapiFloatToInt16 (sample : ℚ) : ℤ :=
  let s1 := if sample > 1 then 1 else sample
  let s2 := if s1 < -1 then -1 else s1
  ratTrunc (s2 * 32767)

/-- SCKAudioCapture.mm lines 190-195 (interleaved float32 path): clamp to
`[-1.0, 1.0]`, then `(int16_t)(sample * 32767.0f)`. -/
def sckInterleavedToInt16 (sample : ℚ) : ℤ :=
  let s1 := if sample > 1 then 1 else sample
  let s2 := if s1 < -1 then -1 else s1
  ratTrunc (s2 * 32767)

/-- SCKAudioCapture.mm lines 157-162 (non-interleaved float32 path): clamp
to `[-1.0, 1.0]`, then `(int16_t)(sample * 32767.0f)`. -/
def sckPlanarToInt16 (sample : ℚ) : ℤ :=
  let s1 := if sample > 1 then 1 else sample
  let s2 := if s1 < -1 then -1 else s1
  ratTrunc (s2 * 32767)

/-- Modelled from the spec wording of the numeric rule: clip to `[-1,1]`
then multiply by 32767 and truncate to int16 (spec section 4.2, "Numeric
rules", and section 8 law 8).  Stated independently of the code so the
three code paths can be compared against it. -/
def clip_round (s : ℚ) : ℤ := ratTrunc (max (-1) (min 1 s) * 32767)

/-! ## 24-bit PCM conversion (WASAPIEngine.cpp lines 366-373) -/

/-- Reinterpretation of a 32-bit unsigned bit pattern as a two's-complement
signed 32-bit integer, the effect of storing the C expression into
`int32_t sample`. -/
def toSigned32 (n : ℕ) : ℤ := if n < 2 ^ 31 then (n : ℤ) else (n : ℤ) - 2 ^ 32

/-- WASAPIEngine.cpp line 369-370: `int32_t sample = (ptr[0] << 8) |
(ptr[1] << 16) | (ptr[2] << 24);` for one 24-bit sample with bytes
`b0, b1, b2` (each a `uint8_t`, hence `< 256` at every call site). -/
def wasapiPack24 (b0 b1 b2 : ℕ) : ℤ :=
  toSigned32 ((b0 <<< 8) ||| (b1 <<< 16) ||| (b2 <<< 24))

/-- WASAPIEngine.cpp line 371: `inputFloats[i] = sample / 2147483648.0f;`.
The divisor is an exact power of two, so the float division is exact. -/
def wasapi24ToFloat (b0 b1 b2 : ℕ) : ℚ :=
  (wasapiPack24 b0 b1 b2 : ℚ) / 2147483648

/-- Sign extension of a 24-bit little-endian value to a signed integer;
the reference semantics named by the claim ("packed into the high 24 bits
... with sign-extended semantics"). -/
def signExtend24 (v : ℕ) : ℤ := if v < 2 ^ 23 then (v : ℤ) else (v : ℤ) - 2 ^ 24

/-! ## Planar interleaving (SCKAudioCapture.mm lines 106-167)

The non-interleaved handler allocates `std::vector<int16_t>
outputBuffer(numFrames * channels)` (value-initialised to zero) and runs

    for (frame = 0; frame < numFrames; frame++)
      for (ch = 0; ch < channels && ch < mNumberBuffers; ch++)
        outputBuffer[frame * channels + ch] =
          (int16_t)(clamp(mBuffers[ch].mData[frame]) * 32767.0f);

then delivers `outputBuffer.size() * sizeof(int16_t)` bytes.  `data ch
frame` below is the planar source `mBuffers[ch].mData[frame]`. -/

/-- Inner channel loop of the planar handler at a fixed frame. -/
def sckFrameLoop (channels numBuffers : ℕ) (data : ℕ → ℕ → ℚ) (frame : ℕ)
    (buf : List ℤ) : List ℤ :=
  (List.range (min channels numBuffers)).foldl
    (fun b ch => b.set (frame * channels + ch) (sckPlanarToInt16 (data ch frame))) buf

/-- Outer frame loop of the planar handler, truncated to the first `k`
frames (the handler runs it with `k = numFrames`). -/
def sckOuterLoop (channels numBuffers : ℕ) (data : ℕ → ℕ → ℚ) (k : ℕ)
    (init : List ℤ) : List ℤ :=
  (List.range k).foldl (fun buf frame => sckFrameLoop channels numBuffers data frame buf) init

/-- The complete interleaved output buffer produced by the planar handler. -/
def sckPlanarInterleave (numFrames channels numBuffers : ℕ) (data : ℕ → ℕ → ℚ) : List ℤ :=
  sckOuterLoop channels numBuffers data numFrames
    (List.replicate (numFrames * channels) (0 : ℤ))

/-- SCKAudioCapture.mm line 166: the byte count handed to the data
callback is `outputBuffer.size() * sizeof(int16_t)`. -/
def sckPlanarDeliveredBytes (numFrames channels numBuffers : ℕ) (data : ℕ → ℕ → ℚ) : ℕ :=
  (sckPlanarInterleave numFrames channels numBuffers data).length * 2

/-! ## Delivered buffer sizes of the remaining paths (claim C4) -/

/-- WASAPIEngine.cpp lines 337-402: the data callback fires only when
`numFramesAvailable > 0` and `inputFloats` (of size `numFramesAvailable *
nChannels`) is non-empty; the delivered length is `pcmData.size() *
sizeof(int16_t)` with `pcmData.size() = numFramesAvailable * nChannels`.
`none` means the callback is not invoked for this packet. -/
def winPacketDeliveredBytes (numFramesAvailable nChannels : ℕ) : Option ℕ :=
  if 0 < numFramesAvailable then
    if numFramesAvailable * nChannels ≠ 0 then some (numFramesAvailable * nChannels * 2)
    else none
  else none

/-- SCKAudioCapture.mm lines 184-198 (interleaved float32 path):
`numSamples = totalLength / sizeof(float)` and the delivered length is
`numSamples * sizeof(int16_t)`. -/
def sckInterleavedDeliveredBytes (totalLength : ℕ) : ℕ :=
  (totalLength / 4) * 2

/-- AVFEngine.mm lines 13-26: the microphone delegate forwards the block
buffer verbatim, delivering `totalLength` bytes whenever
`CMBlockBufferGetDataPointer` succeeded. -/
def avfDelegateDelivered (statusOk : Bool) (totalLength : ℕ) : Option ℕ :=
  if statusOk then some totalLength else none

/-! ## TypeScript facade and Windows engine start (index.ts lines 94-126,
    WASAPIEngine.cpp lines 30-43) -/

/-- State of the TypeScript `AudioRecorder`: its `isRecording` flag and
the callback currently registered with the native controller (callbacks
are modelled as opaque numeric tokens). -/
structure RecorderState where
  isRecording : Bool
  boundCallback : Option ℕ
deriving DecidableEq

/-- index.ts `AudioRecorder.start` (lines 94-126): rejects when already
recording, validates the config (JS falsiness of a string field is
emptiness), then registers the callback with the native controller and
sets the flag.  The returned `Except` is the promise outcome; the state
component is the recorder (and native controller) state afterwards. -/
def recorderStart (st : RecorderState) (deviceType deviceId : String) (cb : ℕ) :
    Except String Unit × RecorderState :=
  if st.isRecording then
    (Except.error "Already recording", st)
  else if deviceType = "" ∨ deviceId = "" then
    (Except.error "Both deviceType and deviceId are required", st)
  else if deviceType ≠ "input" ∧ deviceType ≠ "output" then
    (Except.error "deviceType must be \x27input\x27 or \x27output\x27", st)
  else
    (Except.ok (), { isRecording := true, boundCallback := some cb })

/-- State of the native `WASAPIEngine` relevant to `Start`. -/
structure WinEngineState where
  isRecording : Bool
  dataCallbackId : Option ℕ
  errorCallbackId : Option ℕ
  currentDeviceId : String
  currentDeviceType : String
deriving DecidableEq

/-- WASAPIEngine.cpp lines 30-43: `Start` returns immediately when
`isRecording` is already set (leaving every field, including the
callbacks, untouched); otherwise it installs the callbacks and device
selection and sets the flag (thread spawn abstracted away). -/
def wasapiEngineStart (s : WinEngineState) (deviceType deviceId : String)
    (dataCb errorCb : ℕ) : WinEngineState :=
  if s.isRecording then s
  else
    { isRecording := true
      dataCallbackId := some dataCb
      errorCallbackId := some errorCb
      currentDeviceId := deviceId
      currentDeviceType := deviceType }

/-! ## macOS AVFEngine start/stop (AVFEngine.mm lines 29-141) -/

/-- State of `AVFEngine::Impl`: whether an `AVCaptureSession` object is
held (`sessionAllocated`), whether it is running, whether the
ScreenCaptureKit capture holds a stream, and the delegate/queue
references. -/
structure AVFImplState where
  sessionAllocated : Bool
  sessionRunning : Bool
  sckStreamActive : Bool
  hasDelegate : Bool
  hasQueue : Bool
deriving DecidableEq

/-- AVFEngine.mm lines 46-58, `Impl::Stop`: stop the session if it is
running and drop it, stop the ScreenCaptureKit capture, clear delegate
and queue. -/
def avfImplStop (s : AVFImplState) : AVFImplState :=
  let s1 := if s.sessionAllocated then
      { s with sessionRunning := false, sessionAllocated := false } else s
  let s2 := { s1 with sckStreamActive := false }
  { s2 with hasDelegate := false, hasQueue := false }

/-- Outcomes of the OS calls made by `AVFEngine::Start`, supplied as an
environment. -/
structure AvfStartEnv where
  macOS13Available : Bool
  deviceFound : Bool
  inputCreated : Bool
  canAddInput : Bool
  canAddOutput : Bool
deriving DecidableEq

/-- Error message of AVFEngine.mm line 76 (apostrophes written as `\x27`
escapes). -/
def avfOutputNotSystemMsg : String :=
  "macOS only supports system-wide audio capture for output devices. Use deviceId=\x27system\x27."

/-- Error message of AVFEngine.mm line 83. -/
def avfRequiresMacOS13Msg : String := "System audio recording requires macOS 13.0 or later."

/-- AVFEngine.mm lines 65-141, `AVFEngine::Start`: first `impl->Stop()`,
then either the ScreenCaptureKit output path (rejecting non-"system" ids
and pre-13.0 systems) or the AVFoundation microphone path (allocating
session/delegate/queue, then failing on the first unavailable OS step or
starting the session).  Returns the resulting `Impl` state and the list
of error-callback messages emitted synchronously (the localized
description appended to the line-106 message is omitted). -/
def avfStart (s : AVFImplState) (deviceType deviceId : String) (env : AvfStartEnv) :
    AVFImplState × List String :=
  let s0 := avfImplStop s
  if deviceType = "output" then
    if deviceId ≠ "system" then (s0, [avfOutputNotSystemMsg])
    else if env.macOS13Available then ({ s0 with sckStreamActive := true }, [])
    else (s0, [avfRequiresMacOS13Msg])
  else
    let s1 := { s0 with sessionAllocated := true, hasDelegate := true, hasQueue := true }
    if env.deviceFound = false then (s1, ["Device not found: " ++ deviceId])
    else if env.inputCreated = false then (s1, ["Could not create device input"])
    else if env.canAddInput = false then (s1, ["Cannot add input to session"])
    else if env.canAddOutput = false then (s1, ["Cannot add output to session"])
    else ({ s1 with sessionRunning := true }, [])

/-! ## Device formats (AVFEngine.mm lines 181-208, WASAPIEngine.cpp lines
    180-219, AudioController.cpp lines 150-177) -/

/-- Format record returned by the engines (`AudioEngine.h`). -/
structure AudioFormat where
  sampleRate : ℕ
  channels : ℕ
  bitDepth : ℕ
  rawBitDepth : ℕ
deriving DecidableEq

/-- The part of an `AudioStreamBasicDescription` read by
`AVFEngine::GetDeviceFormat`. -/
structure ASBD where
  mBitsPerChannel : ℕ
deriving DecidableEq

/-- AVFEngine.mm lines 181-208: fixed `(48000, 2, 16, 32)` for the
reserved id "system"; otherwise look the device up by unique id (`none`
if it does not resolve), read its active format description (`some none`
if the ASBD pointer is null), and return `(48000, 2, 16,
mBitsPerChannel)`; every failure leaves the zero-initialised format. -/
def avfGetDeviceFormat (deviceId : String) (device : Option (Option ASBD)) : AudioFormat :=
  if deviceId = "system" then ⟨48000, 2, 16, 32⟩
  else
    match device with
    | none => ⟨0, 0, 0, 0⟩
    | some none => ⟨0, 0, 0, 0⟩
    | some (some asbd) => ⟨48000, 2, 16, asbd.mBitsPerChannel⟩

/-- The fields of a `WAVEFORMATEX`/`WAVEFORMATEXTENSIBLE` read by
`WASAPIEngine::GetDeviceFormat`. -/
structure MixFormat where
  wFormatTag : ℕ
  nSamplesPerSec : ℕ
  nChannels : ℕ
  wBitsPerSample : ℕ
  wValidBitsPerSample : ℕ
deriving DecidableEq

/-- Value of the Windows `WAVE_FORMAT_EXTENSIBLE` tag. -/
def WAVE_FORMAT_EXTENSIBLE : ℕ := 65534

/-- WASAPIEngine.cpp lines 180-219: `none` collapses the failure branches
(null enumerator, `GetDevice`, `Activate` or `GetMixFormat` failing), all
of which return the zero-initialised format; on success the mix format is
copied with `bitDepth = 16`, and `rawBitDepth` is overridden by the
valid-bits field when the format is extensible with a positive
valid-bits value. -/
def wasapiGetDeviceFormat (mixFormat : Option MixFormat) : AudioFormat :=
  match mixFormat with
  | none => ⟨0, 0, 0, 0⟩
  | some w =>
    let rawBits := if w.wFormatTag = WAVE_FORMAT_EXTENSIBLE ∧ 0 < w.wValidBitsPerSample
      then w.wValidBitsPerSample else w.wBitsPerSample
    ⟨w.nSamplesPerSec, w.nChannels, 16, rawBits⟩

/-- AudioController.cpp lines 150-177: the binding throws "Failed to get
device format" exactly when the engine-returned `sampleRate` is zero, and
otherwise returns the populated format object. -/
def controllerGetDeviceFormat (fmt : AudioFormat) : Except String AudioFormat :=
  if fmt.sampleRate = 0 then Except.error "Failed to get device format" else Except.ok fmt

/-! ## Stop / callback-silence trace models (claim C8)

Windows (WASAPIEngine.cpp lines 45-52 and 221-433): both callbacks are
invoked only from inside `RecordingThread`; `Stop` clears the flag and
`join`s the thread, so `Stop` can only return after the thread has
exited.  The machine rejects (returns `none` on) impossible traces.

macOS system audio (SCKAudioCapture.mm lines 83-90 and 92-202): `stop`
calls `stopCaptureWithCompletionHandler:nil` — an asynchronous request
whose completion is not awaited — releases the stream reference and
returns; the data callback property is left set, and sample buffers
already in flight on the capture queue may still be delivered while the
OS stream has not yet terminated. -/

/-- Events of one Windows capture session. -/
inductive WinEvent
  | dataEvt
  | errorEvt
  | exitEvt
  | stopRetEvt
deriving DecidableEq

/-- Observable state of one Windows capture session: whether the producer
thread is still running and whether `Stop` has returned. -/
structure WinSessionState where
  threadAlive : Bool
  stopReturned : Bool
deriving DecidableEq

/-- One step of the Windows session machine.  Callbacks require a live
producer thread; `Stop` returning requires the thread to have exited
(because `Stop` joins it). -/
def winStep (s : WinSessionState) : WinEvent → Option WinSessionState
  | WinEvent.dataEvt => if s.threadAlive then some s else none
  | WinEvent.errorEvt => if s.threadAlive then some s else none
  | WinEvent.exitEvt => if s.threadAlive then some ⟨false, s.stopReturned⟩ else none
  | WinEvent.stopRetEvt => if s.threadAlive then none else some ⟨false, true⟩

/-- Run of the Windows session machine over a trace. -/
def winRun (s : WinSessionState) : List WinEvent → Option WinSessionState
  | [] => some s
  | e :: es =>
    match winStep s e with
    | none => none
    | some s2 => winRun s2 es

/-- Events of one ScreenCaptureKit capture session. -/
inductive SckEvent
  | dataEvt
  | stopRetEvt
  | osStoppedEvt
deriving DecidableEq

/-- Observable state of one ScreenCaptureKit session: whether `self.stream`
is still retained, whether the OS capture pipeline is still delivering,
whether the data callback property is set, and whether `stop` has
returned. -/
structure SckSessionState where
  streamRetained : Bool
  osStreamActive : Bool
  callbackSet : Bool
  stopReturned : Bool
deriving DecidableEq

/-- One step of the ScreenCaptureKit session machine.  A delivery needs
the OS pipeline active and the callback property set (the guard at
SCKAudioCapture.mm line 93); `stop` returns immediately — it only drops
the stream reference, leaving the OS pipeline and the callback property
untouched; OS stream termination is a separate asynchronous event. -/
def sckStep (s : SckSessionState) : SckEvent → Option SckSessionState
  | SckEvent.dataEvt =>
    if s.osStreamActive ∧ s.callbackSet then some s else none
  | SckEvent.stopRetEvt =>
    some { streamRetained := false
           osStreamActive := s.osStreamActive
           callbackSet := s.callbackSet
           stopReturned := true }
  | SckEvent.osStoppedEvt => some { s with osStreamActive := false }

/-- Run of the ScreenCaptureKit session machine over a trace. -/
def sckRun (s : SckSessionState) : List SckEvent → Option SckSessionState
  | [] => some s
  | e :: es =>
    match sckStep s e with
    | none => none
    | some s2 => sckRun s2 es

/-! ## Windows recording-thread failure messages (WASAPIEngine.cpp lines
    240-312)

When `(type, id)` mismatches on Windows, the recording thread fails at
one of its OS initialization steps (which one depends on the OS); every
failure path only invokes the error callback with one of the fixed
string literals below and exits the thread — none of them mutates
`isRecording`, and none carries a `DEVICE_TYPE_MISMATCH`
classification. -/

/-- The OS step of `WASAPIEngine::RecordingThread` at which session
initialization can fail. -/
inductive WinThreadFailure
  | createEnumerator
  | getDevice
  | activateClient
  | getMixFormat
  | initClient
  | setEventHandle
  | getCaptureClient
  | startClient
deriving DecidableEq

/-- The message carried to the error callback at each failure step (the
string literals of WASAPIEngine.cpp lines 246-310). -/
def winThreadFailureMsg (deviceId : String) : WinThreadFailure → String
  | WinThreadFailure.createEnumerator =>
    "Failed to create IMMDeviceEnumerator in recording thread"
  | WinThreadFailure.getDevice => "Failed to get audio device: " ++ deviceId
  | WinThreadFailure.activateClient => "Failed to activate audio client"
  | WinThreadFailure.getMixFormat => "Failed to get mix format"
  | WinThreadFailure.initClient => "Failed to initialize audio client"
  | WinThreadFailure.setEventHandle => "Failed to set event handle"
  | WinThreadFailure.getCaptureClient => "Failed to get capture client"
  | WinThreadFailure.startClient => "Failed to start recording"

/-! ## macOS microphone session around Stop (AVFEngine.mm lines 13-26 and
    46-58)

`Impl::Stop` calls `[session stopRunning]` (synchronous), then drops the
session, delegate and queue references; it neither cancels delegate
callbacks already enqueued on the serial dispatch queue nor clears the
delegate's `dataCallback` property, and the `AVCaptureAudioDataOutput`
still retains the delegate, so an in-flight callback can run — and
deliver — after `Stop` has returned. -/

/-- Events of one macOS microphone capture session. -/
inductive AvfMicEvent
  | enqueueEvt
  | deliverEvt
  | stopRetEvt
deriving DecidableEq

/-- Observable state of one microphone session: whether the capture
session is running, whether the delegate's data-callback property is
set, how many delegate callbacks are already enqueued on the serial
dispatch queue, and whether `Stop` has returned. -/
structure AvfMicSessionState where
  sessionRunning : Bool
  delegateCallbackSet : Bool
  queuedDeliveries : ℕ
  stopReturned : Bool
deriving DecidableEq

/-- One step of the microphone session machine.  The OS enqueues
delegate callbacks only while the session runs; an enqueued callback
delivers whenever the delegate's callback property is still set (the
guard at AVFEngine.mm line 14); `Stop` stops the running session
synchronously and returns, leaving the queued callbacks and the callback
property in place. -/
def avfMicStep (s : AvfMicSessionState) : AvfMicEvent → Option AvfMicSessionState
  | AvfMicEvent.enqueueEvt =>
    if s.sessionRunning then some { s with queuedDeliveries := s.queuedDeliveries + 1 }
    else none
  | AvfMicEvent.deliverEvt =>
    if 0 < s.queuedDeliveries ∧ s.delegateCallbackSet then
      some { s with queuedDeliveries := s.queuedDeliveries - 1 }
    else none
  | AvfMicEvent.stopRetEvt =>
    some { sessionRunning := false
           delegateCallbackSet := s.delegateCallbackSet
           queuedDeliveries := s.queuedDeliveries
           stopReturned := true }

/-- Run of the microphone session machine over a trace. -/
def avfMicRun (s : AvfMicSessionState) : List AvfMicEvent → Option AvfMicSessionState
  | [] => some s
  | e :: es =>
    match avfMicStep s e with
    | none => none
    | some s2 => avfMicRun s2 es

/-! ## Helper lemmas -/

theorem foldl_set_length (l : List ℕ) (f : ℕ → ℕ) (v : ℕ → ℤ) (buf : List ℤ) :
    (l.foldl (fun b x => b.set (f x) (v x)) buf).length = buf.length := by
  induction l generalizing buf with
  | nil => rfl
  | cons x xs ih => simp [List.foldl_cons, ih]

theorem sckFrameLoop_length (channels numBuffers : ℕ) (data : ℕ → ℕ → ℚ) (frame : ℕ)
    (buf : List ℤ) : (sckFrameLoop channels numBuffers data frame buf).length = buf.length :=
  foldl_set_length ..

theorem sckOuterLoop_succ (channels numBuffers : ℕ) (data : ℕ → ℕ → ℚ) (k : ℕ)
    (init : List ℤ) : sckOuterLoop channels numBuffers data (k + 1) init =
      sckFrameLoop channels numBuffers data k (sckOuterLoop channels numBuffers data k init) := by
  unfold sckOuterLoop
  rw [List.range_succ, List.foldl_append]
  simp only [List.foldl_cons, List.foldl_nil]

theorem sckOuterLoop_length (channels numBuffers : ℕ) (data : ℕ → ℕ → ℚ) (k : ℕ)
    (init : List ℤ) : (sckOuterLoop channels numBuffers data k init).length = init.length := by
  induction k with
  | zero => rfl
  | succ k ih =>
    rw [sckOuterLoop_succ, sckFrameLoop_length]
    exact ih

theorem rangeSetLoop_getElem (m base : ℕ) (v : ℕ → ℤ) (buf : List ℤ) (p : ℕ) :
    ((List.range m).foldl (fun b ch => b.set (base + ch) (v ch)) buf)[p]? =
      if base ≤ p ∧ p < base + m ∧ p < buf.length then some (v (p - base)) else buf[p]? := by
  induction m with
  | zero =>
    simp only [List.range_zero, List.foldl_nil]
    rw [if_neg (by omega)]
  | succ m ih =>
    rw [List.range_succ, List.foldl_append]
    simp only [List.foldl_cons, List.foldl_nil]
    have hlen : ((List.range m).foldl (fun b ch => b.set (base + ch) (v ch)) buf).length
        = buf.length := foldl_set_length (List.range m) (fun ch => base + ch) v buf
    by_cases hp : p = base + m
    · subst hp
      by_cases hlt : base + m < buf.length
      · rw [List.getElem?_set_eq_of_lt _ (hlen ▸ hlt)]
        rw [if_pos ⟨by omega, by omega, hlt⟩, Nat.add_sub_cancel_left]
      · have h1 : ((((List.range m).foldl (fun b ch => b.set (base + ch) (v ch)) buf)).set
            (base + m) (v m))[base + m]? = none := by
          apply List.getElem?_eq_none
          rw [List.length_set, hlen]
          omega
        rw [h1, if_neg (by omega)]
        exact (List.getElem?_eq_none (by omega)).symm
    · rw [List.getElem?_set_ne (by omega), ih]
      by_cases hin : base ≤ p ∧ p < base + m ∧ p < buf.length
      · rw [if_pos hin, if_pos ⟨hin.1, by omega, hin.2.2⟩]
      · rw [if_neg hin, if_neg (by omega)]

theorem sckFrameLoop_getElem (channels numBuffers : ℕ) (data : ℕ → ℕ → ℚ) (frame : ℕ)
    (buf : List ℤ) (p : ℕ) :
    (sckFrameLoop channels numBuffers data frame buf)[p]? =
      if frame * channels ≤ p ∧ p < frame * channels + min channels numBuffers ∧ p < buf.length
      then some (sckPlanarToInt16 (data (p - frame * channels) frame)) else buf[p]? :=
  rangeSetLoop_getElem (min channels numBuffers) (frame * channels)
    (fun ch => sckPlanarToInt16 (data ch frame)) buf p

theorem sckOuterLoop_getElem (channels numBuffers : ℕ) (data : ℕ → ℕ → ℚ)
    (init : List ℤ) (k frame ch : ℕ) (hf : frame < k) (hc : ch < channels)
    (hb : ch < numBuffers) (hlen : frame * channels + ch < init.length) :
    (sckOuterLoop channels numBuffers data k init)[frame * channels + ch]? =
      some (sckPlanarToInt16 (data ch frame)) := by
  induction k with
  | zero => exact absurd hf (Nat.not_lt_zero _)
  | succ k ih =>
    have houter : (sckOuterLoop channels numBuffers data k init).length = init.length :=
      sckOuterLoop_length ..
    rw [sckOuterLoop_succ, sckFrameLoop_getElem]
    by_cases hfr : frame = k
    · subst hfr
      rw [if_pos ⟨Nat.le_add_right .., by
          have hm : ch < min channels numBuffers := by omega
          omega, by rw [houter]; exact hlen⟩, Nat.add_sub_cancel_left]
    · have hflt : frame < k := by omega
      have hbound : frame * channels + ch < k * channels := by
        calc frame * channels + ch < frame * channels + channels := by omega
          _ = (frame + 1) * channels := by ring
          _ ≤ k * channels := Nat.mul_le_mul_right channels (by omega)
      rw [if_neg (by omega)]
      exact ih hflt

theorem sckPlanarInterleave_getElem (N C B : ℕ) (data : ℕ → ℕ → ℚ) (frame ch : ℕ)
    (hf : frame < N) (hc : ch < C) (hb : ch < B) :
    (sckPlanarInterleave N C B data)[frame * C + ch]? =
      some (sckPlanarToInt16 (data ch frame)) := by
  unfold sckPlanarInterleave
  apply sckOuterLoop_getElem C B data _ N frame ch hf hc hb
  rw [List.length_replicate]
  calc frame * C + ch < frame * C + C := by omega
    _ = (frame + 1) * C := by ring
    _ ≤ N * C := Nat.mul_le_mul_right C (by omega)

theorem sckPlanarInterleave_length (N C B : ℕ) (data : ℕ → ℕ → ℚ) :
    (sckPlanarInterleave N C B data).length = N * C := by
  unfold sckPlanarInterleave
  rw [sckOuterLoop_length, List.length_replicate]

theorem clip_seq_eq_max_min (s : ℚ) :
    (if (if s > 1 then 1 else s) < -1 then -1 else if s > 1 then 1 else s)
      = max (-1) (min 1 s) := by
  rcases le_or_lt s 1 with h1 | h1
  · rcases le_or_lt (-1 : ℚ) s with h2 | h2
    · simp [not_lt.mpr h1, min_eq_right h1, not_lt.mpr h2, max_eq_right h2]
    · simp [not_lt.mpr h1, min_eq_right h1, h2, max_eq_left h2.le]
  · have h3 : ¬ ((1 : ℚ) < -1) := by norm_num
    simp [h1, h3, min_eq_left h1.le]

theorem lor_bytes_eq_add (b0 b1 b2 : ℕ) (h0 : b0 < 256) (h1 : b1 < 256) (_h2 : b2 < 256) :
    (b0 <<< 8) ||| (b1 <<< 16) ||| (b2 <<< 24) = b0 * 2 ^ 8 + b1 * 2 ^ 16 + b2 * 2 ^ 24 := by
  have e1 : (b0 <<< 8) ||| (b1 <<< 16) = 2 ^ 16 * b1 + b0 * 2 ^ 8 := by
    rw [Nat.shiftLeft_eq, Nat.shiftLeft_eq, Nat.lor_comm,
      show b1 * 2 ^ 16 = 2 ^ 16 * b1 from Nat.mul_comm ..]
    exact (Nat.mul_add_lt_is_or (by omega) b1).symm
  rw [e1, Nat.shiftLeft_eq, Nat.lor_comm,
    show b2 * 2 ^ 24 = 2 ^ 24 * b2 from Nat.mul_comm ..]
  rw [← Nat.mul_add_lt_is_or (by omega) b2]
  ring

theorem winRun_append (tr1 tr2 : List WinEvent) (s s2 : WinSessionState)
    (h : winRun s (tr1 ++ tr2) = some s2) :
    ∃ smid, winRun s tr1 = some smid ∧ winRun smid tr2 = some s2 := by
  induction tr1 generalizing s with
  | nil => exact ⟨s, rfl, h⟩
  | cons e es ih =>
    rw [List.cons_append] at h
    unfold winRun at h
    match he : winStep s e with
    | none => rw [he] at h; exact absurd h (by simp)
    | some s3 =>
      rw [he] at h
      obtain ⟨smid, hmid, hrest⟩ := ih s3 h
      exact ⟨smid, by unfold winRun; rw [he]; exact hmid, hrest⟩

theorem winRun_dead_silent (tr : List WinEvent) (s s2 : WinSessionState)
    (h : winRun s tr = some s2) (hdead : s.threadAlive = false) :
    WinEvent.dataEvt ∉ tr ∧ WinEvent.errorEvt ∉ tr := by
  induction tr generalizing s with
  | nil => exact ⟨List.not_mem_nil _, List.not_mem_nil _⟩
  | cons e es ih =>
    unfold winRun at h
    cases e with
    | dataEvt => rw [winStep, hdead] at h; exact absurd h (by simp)
    | errorEvt => rw [winStep, hdead] at h; exact absurd h (by simp)
    | exitEvt => rw [winStep, hdead] at h; exact absurd h (by simp)
    | stopRetEvt =>
      rw [winStep, hdead] at h
      simp only [Bool.false_eq_true, if_false] at h
      obtain ⟨hd, he⟩ := ih ⟨false, true⟩ h rfl
      refine ⟨?_, ?_⟩ <;> intro hmem <;> rcases List.mem_cons.mp hmem with hc | hc
      · exact absurd hc (by simp)
      · exact hd hc
      · exact absurd hc (by simp)
      · exact he hc

/-! ## Claim theorems -/

/-- C1: for every float32 input sample `s`, all three conversion paths
(the Windows capture loop and both macOS system-audio paths) produce the
int16 sample `clip_round (s * 32767)` — `s` clipped to `[-1, 1]`, scaled
by 32767 and truncated to int16 — and in particular `0 ↦ 0`, `1 ↦ 32767`,
`-1 ↦ -32767`, `2 ↦ 32767`, `-2 ↦ -32767`. -/
theorem float32_quantization_paths_match_spec :
    (∀ s : ℚ, wasapiFloatToInt16 s = clip_round s
      ∧ sckInterleavedToInt16 s = clip_round s
      ∧ sckPlanarToInt16 s = clip_round s)
    ∧ clip_round 0 = 0 ∧ clip_round 1 = 32767 ∧ clip_round (-1) = -32767
    ∧ clip_round 2 = 32767 ∧ clip_round (-2) = -32767 := by
  have hpath : ∀ s : ℚ, wasapiFloatToInt16 s = clip_round s := by
    intro s
    show ratTrunc ((if (if s > 1 then 1 else s) < -1 then -1 else if s > 1 then 1 else s)
        * 32767) = ratTrunc (max (-1) (min 1 s) * 32767)
    rw [clip_seq_eq_max_min]
  refine ⟨fun s => ⟨hpath s, hpath s, hpath s⟩, ?_, ?_, ?_, ?_, ?_⟩ <;>
    norm_num [clip_round, ratTrunc]

/-- C2: the Windows 24-bit path packs the three sample bytes into the high
24 bits of a signed 32-bit integer with sign-extended semantics and
divides by 2147483648; the lowest-negative bytes `[0x00, 0x00, 0x80]`
quantize to −32767 (within ±1 of −32768) and `[0xFF, 0xFF, 0x7F]` to
32766 (within ±1 of +32767). -/
theorem pcm24_pack_sign_extended :
    (∀ b0 b1 b2 : ℕ, b0 < 256 → b1 < 256 → b2 < 256 →
      wasapiPack24 b0 b1 b2 = signExtend24 (b0 + b1 * 2 ^ 8 + b2 * 2 ^ 16) * 2 ^ 8
      ∧ wasapi24ToFloat b0 b1 b2
          = ((signExtend24 (b0 + b1 * 2 ^ 8 + b2 * 2 ^ 16) * 2 ^ 8 : ℤ) : ℚ) / 2147483648)
    ∧ wasapiFloatToInt16 (wasapi24ToFloat 0x00 0x00 0x80) = -32767
    ∧ (wasapiFloatToInt16 (wasapi24ToFloat 0x00 0x00 0x80) - (-32768)).natAbs ≤ 1
    ∧ wasapiFloatToInt16 (wasapi24ToFloat 0xFF 0xFF 0x7F) = 32766
    ∧ (wasapiFloatToInt16 (wasapi24ToFloat 0xFF 0xFF 0x7F) - 32767).natAbs ≤ 1 := by
  have hpackgen : ∀ b0 b1 b2 : ℕ, b0 < 256 → b1 < 256 → b2 < 256 →
      wasapiPack24 b0 b1 b2 = signExtend24 (b0 + b1 * 2 ^ 8 + b2 * 2 ^ 16) * 2 ^ 8 := by
    intro b0 b1 b2 h0 h1 h2
    unfold wasapiPack24 toSigned32 signExtend24
    rw [lor_bytes_eq_add b0 b1 b2 h0 h1 h2]
    by_cases hc : b2 < 128
    · rw [if_pos (by omega), if_pos (by omega)]
      push_cast
      ring
    · rw [if_neg (by omega), if_neg (by omega)]
      push_cast
      ring
  have hlo : wasapiPack24 0x00 0x00 0x80 = -2147483648 := by decide
  have hhi : wasapiPack24 0xFF 0xFF 0x7F = 2147483392 := by decide
  refine ⟨fun b0 b1 b2 h0 h1 h2 => ⟨hpackgen b0 b1 b2 h0 h1 h2, ?_⟩, ?_, ?_, ?_, ?_⟩
  · unfold wasapi24ToFloat
    rw [hpackgen b0 b1 b2 h0 h1 h2]
  · rw [show wasapi24ToFloat 0x00 0x00 0x80 = ((-2147483648 : ℤ) : ℚ) / 2147483648 by
      unfold wasapi24ToFloat; rw [hlo]]
    norm_num [wasapiFloatToInt16, ratTrunc]
  · rw [show wasapi24ToFloat 0x00 0x00 0x80 = ((-2147483648 : ℤ) : ℚ) / 2147483648 by
      unfold wasapi24ToFloat; rw [hlo]]
    norm_num [wasapiFloatToInt16, ratTrunc]
  · rw [show wasapi24ToFloat 0xFF 0xFF 0x7F = ((2147483392 : ℤ) : ℚ) / 2147483648 by
      unfold wasapi24ToFloat; rw [hhi]]
    norm_num [wasapiFloatToInt16, ratTrunc]
  · rw [show wasapi24ToFloat 0xFF 0xFF 0x7F = ((2147483392 : ℤ) : ℚ) / 2147483648 by
      unfold wasapi24ToFloat; rw [hhi]]
    norm_num [wasapiFloatToInt16, ratTrunc]

/-- Witness for C2 at concrete bytes (1, 2, 3). -/
theorem pcm24_pack_sign_extended_witness :
    ((1 : ℕ) < 256 ∧ (2 : ℕ) < 256 ∧ (3 : ℕ) < 256)
    ∧ wasapiPack24 1 2 3 = signExtend24 (1 + 2 * 2 ^ 8 + 3 * 2 ^ 16) * 2 ^ 8 :=
  ⟨⟨by decide, by decide, by decide⟩,
    (pcm24_pack_sign_extended.1 1 2 3 (by decide) (by decide) (by decide)).1⟩

/-- C3: the planar macOS system-audio handler writes the clamped,
quantized sample of `(frame, channel)` to output position
`frame * C + ch` and delivers exactly `N * C * 2` bytes; with 1024 frames
and 2 channels it delivers 4096 bytes, channel 0 occupying the even
int16 positions and channel 1 the odd ones. -/
theorem planar_interleave_positions_and_size (N C B : ℕ) (data : ℕ → ℕ → ℚ)
    (frame ch f2 : ℕ) (hf : frame < N) (hc : ch < C) (hb : ch < B) (hf2 : f2 < 1024) :
    (sckPlanarInterleave N C B data)[frame * C + ch]? =
        some (sckPlanarToInt16 (data ch frame))
    ∧ sckPlanarDeliveredBytes N C B data = N * C * 2
    ∧ sckPlanarDeliveredBytes 1024 2 2 data = 4096
    ∧ (sckPlanarInterleave 1024 2 2 data)[2 * f2]? = some (sckPlanarToInt16 (data 0 f2))
    ∧ (sckPlanarInterleave 1024 2 2 data)[2 * f2 + 1]? =
        some (sckPlanarToInt16 (data 1 f2)) := by
  refine ⟨sckPlanarInterleave_getElem N C B data frame ch hf hc hb, ?_, ?_, ?_, ?_⟩
  · unfold sckPlanarDeliveredBytes
    rw [sckPlanarInterleave_length]
  · unfold sckPlanarDeliveredBytes
    rw [sckPlanarInterleave_length]
  · rw [show 2 * f2 = f2 * 2 + 0 by ring]
    exact sckPlanarInterleave_getElem 1024 2 2 data f2 0 hf2 (by decide) (by decide)
  · rw [show 2 * f2 + 1 = f2 * 2 + 1 by ring]
    exact sckPlanarInterleave_getElem 1024 2 2 data f2 1 hf2 (by decide) (by decide)

/-- Witness for C3 at `N = C = B = 2`, zero samples, frame 1, channel 1,
sine-frame index 0. -/
theorem planar_interleave_positions_and_size_witness :
    ((1 : ℕ) < 2 ∧ (1 : ℕ) < 2 ∧ (1 : ℕ) < 2 ∧ (0 : ℕ) < 1024)
    ∧ sckPlanarDeliveredBytes 2 2 2 (fun _ _ => 0) = 2 * 2 * 2 :=
  ⟨⟨by decide, by decide, by decide, by decide⟩,
    (planar_interleave_positions_and_size 2 2 2 (fun _ _ => 0) 1 1 0
      (by decide) (by decide) (by decide) (by decide)).2.1⟩

/-- Helper: `Impl::Stop` leaves every reachable state fully inactive
(reachability: a running session implies a held session object). -/
theorem avfImplStop_clears (s : AVFImplState)
    (hs : s.sessionRunning = true → s.sessionAllocated = true) :
    avfImplStop s = ⟨false, false, false, false, false⟩ := by
  rcases s with ⟨sa, sr, sk, hd, hq⟩
  cases sa
  · cases sr
    · rfl
    · exact absurd (hs rfl) (by simp)
  · rfl

/-- C4: every buffer delivered to the data callback is a whole number of
16-bit interleaved frames — a positive multiple of `2 * channels` bytes —
on the Windows packet path unconditionally, and on the three macOS paths
whenever the OS hands the handler at least one whole frame (planar:
`N` frames × `C` channels; interleaved float32: `frames * C * 4` input
bytes; microphone delegate: `frames * ch * 2` input bytes of the
configured 16-bit format). -/
theorem delivered_buffer_whole_frames :
    (∀ frames ch len, winPacketDeliveredBytes frames ch = some len →
      0 < len ∧ ∃ k, 0 < k ∧ len = k * (2 * ch))
    ∧ (∀ N C B data, 0 < N → 0 < C →
      0 < sckPlanarDeliveredBytes N C B data
      ∧ ∃ k, 0 < k ∧ sckPlanarDeliveredBytes N C B data = k * (2 * C))
    ∧ (∀ frames C, 0 < frames → 0 < C →
      0 < sckInterleavedDeliveredBytes (frames * C * 4)
      ∧ ∃ k, 0 < k ∧ sckInterleavedDeliveredBytes (frames * C * 4) = k * (2 * C))
    ∧ (∀ frames ch, 0 < frames → 0 < ch →
      avfDelegateDelivered true (frames * ch * 2) = some (frames * (2 * ch))
      ∧ 0 < frames * (2 * ch)) := by
  refine ⟨?_, ?_, ?_, ?_⟩
  · intro frames ch len h
    unfold winPacketDeliveredBytes at h
    by_cases hf : 0 < frames
    · rw [if_pos hf] at h
      by_cases hs : frames * ch ≠ 0
      · rw [if_pos hs] at h
        have hlen : len = frames * ch * 2 := (Option.some.inj h).symm
        have hch : 0 < ch := by
          rcases Nat.eq_zero_or_pos ch with hz | hp
          · exact absurd (by rw [hz, Nat.mul_zero]) hs
          · exact hp
        refine ⟨?_, frames, hf, by rw [hlen]; ring⟩
        rw [hlen]
        exact Nat.mul_pos (Nat.mul_pos hf hch) (by norm_num)
      · rw [if_neg hs] at h
        exact absurd h (by simp)
    · rw [if_neg hf] at h
      exact absurd h (by simp)
  · intro N C B data hN hC
    have hlen : sckPlanarDeliveredBytes N C B data = N * C * 2 := by
      unfold sckPlanarDeliveredBytes
      rw [sckPlanarInterleave_length]
    refine ⟨by rw [hlen]; positivity, N, hN, by rw [hlen]; ring⟩
  · intro frames C hf hC
    have hlen : sckInterleavedDeliveredBytes (frames * C * 4) = frames * C * 2 := by
      unfold sckInterleavedDeliveredBytes
      rw [Nat.mul_div_cancel _ (by norm_num)]
    refine ⟨by rw [hlen]; positivity, frames, hf, by rw [hlen]; ring⟩
  · intro frames ch hf hch
    constructor
    · unfold avfDelegateDelivered
      rw [if_pos rfl]
      congr 1
      ring
    · positivity

/-- Witness for C4: 3 frames × 2 channels on each path. -/
theorem delivered_buffer_whole_frames_witness :
    (winPacketDeliveredBytes 3 2 = some 12
      ∧ (0 < 12 ∧ ∃ k, 0 < k ∧ 12 = k * (2 * 2)))
    ∧ ((0 : ℕ) < 3 ∧ (0 : ℕ) < 2
      ∧ (0 < sckPlanarDeliveredBytes 3 2 2 (fun _ _ => 0)
        ∧ ∃ k, 0 < k ∧ sckPlanarDeliveredBytes 3 2 2 (fun _ _ => 0) = k * (2 * 2))
      ∧ (0 < sckInterleavedDeliveredBytes (3 * 2 * 4)
        ∧ ∃ k, 0 < k ∧ sckInterleavedDeliveredBytes (3 * 2 * 4) = k * (2 * 2))
      ∧ (avfDelegateDelivered true (3 * 2 * 2) = some (3 * (2 * 2)) ∧ 0 < 3 * (2 * 2))) :=
  have h : winPacketDeliveredBytes 3 2 = some 12 := by decide
  ⟨⟨h, delivered_buffer_whole_frames.1 3 2 12 h⟩,
    by decide, by decide,
    delivered_buffer_whole_frames.2.1 3 2 2 (fun _ _ => 0) (by decide) (by decide),
    delivered_buffer_whole_frames.2.2.1 3 2 (by decide) (by decide),
    delivered_buffer_whole_frames.2.2.2 3 2 (by decide) (by decide)⟩

/-- C5: calling `Start` while a session is active is rejected: the
TypeScript facade throws "Already recording" (the repository's carrier of
the `ALREADY_RECORDING` classification) leaving its state — including the
callback registered by the first session — untouched, and the native
engine's `Start` returns without replacing the first session's callbacks,
so the second callback is never installed and the first keeps receiving
data. -/
theorem double_start_rejected_already_recording (st : RecorderState) (dt di : String)
    (cb2 : ℕ) (es : WinEngineState) (dt2 di2 : String) (d2 e2 : ℕ)
    (h : st.isRecording = true) (h2 : es.isRecording = true) :
    recorderStart st dt di cb2 = (Except.error "Already recording", st)
    ∧ (recorderStart st dt di cb2).2.boundCallback = st.boundCallback
    ∧ wasapiEngineStart es dt2 di2 d2 e2 = es
    ∧ (wasapiEngineStart es dt2 di2 d2 e2).dataCallbackId = es.dataCallbackId := by
  have hr : recorderStart st dt di cb2 = (Except.error "Already recording", st) := by
    unfold recorderStart
    rw [if_pos h]
  have hw : wasapiEngineStart es dt2 di2 d2 e2 = es := by
    unfold wasapiEngineStart
    rw [if_pos h2]
  exact ⟨hr, by rw [hr], hw, by rw [hw]⟩

/-- Witness for C5: a recorder and an engine that are already recording. -/
theorem double_start_rejected_already_recording_witness :
    (RecorderState.mk true (some 1)).isRecording = true
    ∧ recorderStart ⟨true, some 1⟩ "input" "m1" 2
        = (Except.error "Already recording", ⟨true, some 1⟩)
    ∧ wasapiEngineStart ⟨true, some 1, some 2, "m1", "input"⟩ "input" "m1" 3 4
        = ⟨true, some 1, some 2, "m1", "input"⟩ :=
  have h := double_start_rejected_already_recording ⟨true, some 1⟩ "input" "m1" 2
    ⟨true, some 1, some 2, "m1", "input"⟩ "input" "m1" 3 4 rfl rfl
  ⟨rfl, h.1, h.2.2.1⟩

/-- C6 counterexample: a `Start` whose id resolves to a device of the
opposite type is rejected, but the error message carried to the error
callback is not the `DEVICE_TYPE_MISMATCH` classification: `type=output`
with a known-input id produces the "macOS only supports system-wide audio
capture" message, and `type=input` with the known-output id "system"
produces "Device not found: system" (no AVFoundation device has that
unique id). -/
theorem type_mismatch_classification_counterexample :
    (avfStart ⟨false, false, false, false, false⟩ "output" "BuiltInMicrophoneDevice"
        ⟨true, true, true, true, true⟩).2 = [avfOutputNotSystemMsg]
    ∧ (avfStart ⟨false, false, false, false, false⟩ "output" "BuiltInMicrophoneDevice"
        ⟨true, true, true, true, true⟩).1.sessionRunning = false
    ∧ (avfStart ⟨false, false, false, false, false⟩ "output" "BuiltInMicrophoneDevice"
        ⟨true, true, true, true, true⟩).1.sckStreamActive = false
    ∧ avfOutputNotSystemMsg ≠ "DEVICE_TYPE_MISMATCH"
    ∧ (avfStart ⟨false, false, false, false, false⟩ "input" "system"
        ⟨true, false, true, true, true⟩).2 = ["Device not found: system"]
    ∧ "Device not found: system" ≠ "DEVICE_TYPE_MISMATCH" := by
  refine ⟨?_, ?_, ?_, ?_, ?_, ?_⟩ <;> decide

/-- C6 (amended): for a `Start` whose id is of the opposite type the
engine rejects the request via the error callback, but never with the
literal `DEVICE_TYPE_MISMATCH` classification.  On macOS (both mismatch
directions) the message is a backend-specific description and no session
becomes active.  On Windows the recording thread fails at one of its OS
initialization steps and reports that step's fixed message — none of the
possible messages is `DEVICE_TYPE_MISMATCH` for any device id — while
the `isRecording` flag set by `Start` remains set despite the failure
(only `Stop` clears it). -/
theorem type_mismatch_rejection_amended (s : AVFImplState) (di : String) (env : AvfStartEnv)
    (hs : s.sessionRunning = true → s.sessionAllocated = true)
    (hdi : di ≠ "system") (hdev : env.deviceFound = false) :
    (avfStart s "output" di env).2 = [avfOutputNotSystemMsg]
    ∧ (avfStart s "output" di env).1.sessionRunning = false
    ∧ (avfStart s "output" di env).1.sckStreamActive = false
    ∧ (avfStart s "input" "system" env).2 = ["Device not found: system"]
    ∧ (avfStart s "input" "system" env).1.sessionRunning = false
    ∧ (avfStart s "input" "system" env).1.sckStreamActive = false
    ∧ avfOutputNotSystemMsg ≠ "DEVICE_TYPE_MISMATCH"
    ∧ (∀ f : WinThreadFailure, ∀ devId : String,
        winThreadFailureMsg devId f ≠ "DEVICE_TYPE_MISMATCH")
    ∧ (∀ es : WinEngineState, ∀ dt2 di2 : String, ∀ d e : ℕ,
        es.isRecording = false → (wasapiEngineStart es dt2 di2 d e).isRecording = true) := by
  have h0 := avfImplStop_clears s hs
  have hout : avfStart s "output" di env
      = (⟨false, false, false, false, false⟩, [avfOutputNotSystemMsg]) := by
    unfold avfStart
    rw [h0, if_pos rfl, if_pos hdi]
  have hin : avfStart s "input" "system" env
      = (⟨true, false, false, true, true⟩, ["Device not found: " ++ "system"]) := by
    unfold avfStart
    rw [h0, if_neg (by decide), if_pos hdev]
  refine ⟨by rw [hout], by rw [hout], by rw [hout], by rw [hin]; rfl, by rw [hin],
    by rw [hin], by decide, ?_, ?_⟩
  · intro f devId
    cases f
    case getDevice =>
      intro hdevEq
      have h2 := congrArg String.length hdevEq
      simp only [winThreadFailureMsg] at h2
      rw [String.length_append] at h2
      have e1 : ("Failed to get audio device: " : String).length = 28 := rfl
      have e2 : ("DEVICE_TYPE_MISMATCH" : String).length = 20 := rfl
      rw [e1, e2] at h2
      omega
    all_goals
      simp only [winThreadFailureMsg]
      decide
  · intro es dt2 di2 d e hrec
    unfold wasapiEngineStart
    rw [if_neg (by rw [hrec]; exact Bool.false_ne_true)]

/-- Witness for C6 (amended) at a concrete prior state, input id and
environment. -/
theorem type_mismatch_rejection_amended_witness :
    (((⟨false, false, false, false, false⟩ : AVFImplState).sessionRunning = true →
        (⟨false, false, false, false, false⟩ : AVFImplState).sessionAllocated = true)
      ∧ "BuiltInMic" ≠ "system"
      ∧ (AvfStartEnv.mk true false true true true).deviceFound = false)
    ∧ (avfStart ⟨false, false, false, false, false⟩ "output" "BuiltInMic"
        ⟨true, false, true, true, true⟩).2 = [avfOutputNotSystemMsg] :=
  ⟨⟨fun h => h, by decide, rfl⟩,
    (type_mismatch_rejection_amended ⟨false, false, false, false, false⟩ "BuiltInMic"
      ⟨true, false, true, true, true⟩ (fun h => h) (by decide) rfl).1⟩

/-- C7: `GetDeviceFormat` returns the fixed `(48000, 2, 16, 32)` for the
reserved macOS id "system"; for any other resolvable device it queries
the device's mix/active format and returns `bitDepth = 16` with
`rawBitDepth` the native sample width (on Windows taken from the
valid-bits field when the mix format is extensible with positive
valid bits; when the extensible valid-bits field is zero the code keeps
`wBitsPerSample`, also proved). -/
theorem get_device_format_contract (dev : Option (Option ASBD)) (deviceId : String)
    (asbd : ASBD) (w : MixFormat) (hid : deviceId ≠ "system") :
    avfGetDeviceFormat "system" dev = ⟨48000, 2, 16, 32⟩
    ∧ avfGetDeviceFormat deviceId (some (some asbd)) = ⟨48000, 2, 16, asbd.mBitsPerChannel⟩
    ∧ (wasapiGetDeviceFormat (some w)).bitDepth = 16
    ∧ (wasapiGetDeviceFormat (some w)).sampleRate = w.nSamplesPerSec
    ∧ (wasapiGetDeviceFormat (some w)).channels = w.nChannels
    ∧ (w.wFormatTag = WAVE_FORMAT_EXTENSIBLE → 0 < w.wValidBitsPerSample →
        (wasapiGetDeviceFormat (some w)).rawBitDepth = w.wValidBitsPerSample)
    ∧ (w.wFormatTag ≠ WAVE_FORMAT_EXTENSIBLE →
        (wasapiGetDeviceFormat (some w)).rawBitDepth = w.wBitsPerSample)
    ∧ (w.wFormatTag = WAVE_FORMAT_EXTENSIBLE → w.wValidBitsPerSample = 0 →
        (wasapiGetDeviceFormat (some w)).rawBitDepth = w.wBitsPerSample) := by
  refine ⟨by unfold avfGetDeviceFormat; rw [if_pos rfl],
    by unfold avfGetDeviceFormat; rw [if_neg hid],
    rfl, rfl, rfl, ?_, ?_, ?_⟩
  · intro ht hv
    unfold wasapiGetDeviceFormat
    simp only [if_pos (And.intro ht hv)]
  · intro ht
    unfold wasapiGetDeviceFormat
    simp only [if_neg (fun hc : _ ∧ _ => ht hc.1)]
  · intro ht hv
    show (if w.wFormatTag = WAVE_FORMAT_EXTENSIBLE ∧ 0 < w.wValidBitsPerSample
        then w.wValidBitsPerSample else w.wBitsPerSample) = w.wBitsPerSample
    rw [hv, if_neg (fun hc => absurd hc.2 (lt_irrefl 0))]

/-- Witness for C7 at a concrete non-system id and an extensible mix
format with 24 valid bits in a 32-bit container. -/
theorem get_device_format_contract_witness :
    ("BuiltInMic" ≠ "system")
    ∧ avfGetDeviceFormat "system" none = ⟨48000, 2, 16, 32⟩
    ∧ avfGetDeviceFormat "BuiltInMic" (some (some ⟨24⟩)) = ⟨48000, 2, 16, 24⟩ :=
  have h := get_device_format_contract none "BuiltInMic" ⟨24⟩ ⟨65534, 48000, 2, 32, 24⟩
    (by decide)
  ⟨by decide, h.1, h.2.1⟩

/-- Helper: when `Stop` returns (which is only possible with the producer
thread already exited), the resulting session state has a dead thread. -/
theorem winStep_stopRet_dead (s s3 : WinSessionState)
    (h : winStep s WinEvent.stopRetEvt = some s3) : s3.threadAlive = false := by
  rcases s with ⟨ta, sr⟩
  cases ta
  · have h2 : winStep ⟨false, sr⟩ WinEvent.stopRetEvt = some ⟨false, true⟩ := rfl
    rw [h2] at h
    rw [← Option.some.inj h]
  · have h2 : winStep ⟨true, sr⟩ WinEvent.stopRetEvt = none := rfl
    rw [h2] at h
    exact absurd h (by simp)

/-- C8 counterexample: on the macOS system-audio backend a data delivery
is still possible after `stop` has returned — `stop` only requests
termination asynchronously (`stopCaptureWithCompletionHandler:nil`) and
leaves the callback property set, so the trace "stop returns, then a
buffer in flight on the capture queue is delivered" is accepted by the
session machine. -/
theorem sck_stop_inflight_delivery_counterexample :
    sckRun ⟨true, true, true, false⟩ [SckEvent.stopRetEvt, SckEvent.dataEvt]
      = some ⟨false, true, true, true⟩ := by
  decide

/-- C8 (amended): on the Windows backend, once `Stop` has returned
(which requires the joined producer thread to have exited) neither the
data nor the error callback is ever invoked again for that session.  On
both macOS backends `Stop` does not guarantee that: the system-audio
`stop` requests stream termination asynchronously without waiting and
leaves the callback property set, and the microphone `Impl::Stop` stops
the session synchronously but cancels neither the delegate callbacks
already enqueued on the serial queue nor the delegate's callback
property — so on either macOS backend an in-flight delivery after `Stop`
returns is possible. -/
theorem stop_callback_silence_amended (tr1 tr2 : List WinEvent) (s2 : WinSessionState)
    (h : winRun ⟨true, false⟩ (tr1 ++ WinEvent.stopRetEvt :: tr2) = some s2) :
    (WinEvent.dataEvt ∉ tr2 ∧ WinEvent.errorEvt ∉ tr2)
    ∧ (sckRun ⟨true, true, true, false⟩ [SckEvent.stopRetEvt, SckEvent.dataEvt]).isSome
        = true
    ∧ (avfMicRun ⟨true, true, 1, false⟩
        [AvfMicEvent.stopRetEvt, AvfMicEvent.deliverEvt]).isSome = true := by
  obtain ⟨smid, h1, h2⟩ := winRun_append _ _ _ _ h
  unfold winRun at h2
  cases hstep : winStep smid WinEvent.stopRetEvt with
  | none =>
    rw [hstep] at h2
    exact absurd h2 (by simp)
  | some s3 =>
    rw [hstep] at h2
    exact ⟨winRun_dead_silent tr2 s3 s2 h2 (winStep_stopRet_dead smid s3 hstep),
      by decide, by decide⟩

/-- Witness for C8 (amended): a session that delivers one buffer, whose
producer thread exits, and whose `Stop` then returns. -/
theorem stop_callback_silence_amended_witness :
    winRun ⟨true, false⟩ ([WinEvent.dataEvt, WinEvent.exitEvt] ++ WinEvent.stopRetEvt :: [])
      = some ⟨false, true⟩
    ∧ ((WinEvent.dataEvt ∉ ([] : List WinEvent) ∧ WinEvent.errorEvt ∉ ([] : List WinEvent))
      ∧ (sckRun ⟨true, true, true, false⟩ [SckEvent.stopRetEvt, SckEvent.dataEvt]).isSome
          = true
      ∧ (avfMicRun ⟨true, true, 1, false⟩
          [AvfMicEvent.stopRetEvt, AvfMicEvent.deliverEvt]).isSome = true) :=
  have h : winRun ⟨true, false⟩
      ([WinEvent.dataEvt, WinEvent.exitEvt] ++ WinEvent.stopRetEvt :: [])
      = some ⟨false, true⟩ := by decide
  ⟨h, stop_callback_silence_amended [WinEvent.dataEvt, WinEvent.exitEvt] [] ⟨false, true⟩ h⟩

/-- C9: `AVFEngine::Start` synchronously tears down any previously active
session before starting the new one: `Impl::Stop` leaves the
implementation fully inactive, the outcome of `Start` (state and emitted
errors) is independent of the prior session, and the result never has
both the microphone session and the ScreenCaptureKit stream active, so
the at-most-one-active-session invariant is preserved and the replaced
session is discarded without any error being reported for it. -/
theorem avf_start_tears_down_previous_session (s s2 : AVFImplState) (dt di : String)
    (env : AvfStartEnv)
    (hs : s.sessionRunning = true → s.sessionAllocated = true)
    (hs2 : s2.sessionRunning = true → s2.sessionAllocated = true) :
    avfImplStop s = ⟨false, false, false, false, false⟩
    ∧ avfStart s dt di env = avfStart s2 dt di env
    ∧ ¬((avfStart s dt di env).1.sessionRunning = true
        ∧ (avfStart s dt di env).1.sckStreamActive = true) := by
  have h0 := avfImplStop_clears s hs
  have h02 := avfImplStop_clears s2 hs2
  refine ⟨h0, ?_, ?_⟩
  · unfold avfStart
    rw [h0, h02]
  · unfold avfStart
    rw [h0]
    split_ifs <;> simp

/-- Witness for C9: replacing an active microphone session by a
system-audio session. -/
theorem avf_start_tears_down_previous_session_witness :
    (((⟨true, true, false, true, true⟩ : AVFImplState).sessionRunning = true →
        (⟨true, true, false, true, true⟩ : AVFImplState).sessionAllocated = true)
      ∧ ((⟨false, false, false, false, false⟩ : AVFImplState).sessionRunning = true →
        (⟨false, false, false, false, false⟩ : AVFImplState).sessionAllocated = true))
    ∧ avfImplStop ⟨true, true, false, true, true⟩ = ⟨false, false, false, false, false⟩
    ∧ avfStart ⟨true, true, false, true, true⟩ "output" "system" ⟨true, true, true, true, true⟩
        = avfStart ⟨false, false, false, false, false⟩ "output" "system"
            ⟨true, true, true, true, true⟩ :=
  have h := avf_start_tears_down_previous_session ⟨true, true, false, true, true⟩
    ⟨false, false, false, false, false⟩ "output" "system" ⟨true, true, true, true, true⟩
    (fun hc => hc) (fun hc => hc)
  ⟨⟨fun hc => hc, fun hc => hc⟩, h.1, h.2.1⟩

/-- C10: an unresolvable device id (or a failed platform format query)
makes the native `GetDeviceFormat` return the all-zero sentinel format on
both backends, and the binding layer throws "Failed to get device format"
exactly when the returned `sampleRate` is zero, returning the populated
format object otherwise. -/
theorem format_failure_zero_sentinel_and_throw (deviceId : String) (fmt : AudioFormat)
    (hid : deviceId ≠ "system") :
    wasapiGetDeviceFormat none = ⟨0, 0, 0, 0⟩
    ∧ avfGetDeviceFormat deviceId none = ⟨0, 0, 0, 0⟩
    ∧ avfGetDeviceFormat deviceId (some none) = ⟨0, 0, 0, 0⟩
    ∧ (controllerGetDeviceFormat fmt = Except.error "Failed to get device format"
        ↔ fmt.sampleRate = 0)
    ∧ (fmt.sampleRate ≠ 0 → controllerGetDeviceFormat fmt = Except.ok fmt) := by
  refine ⟨rfl, ?_, ?_, ?_, ?_⟩
  · unfold avfGetDeviceFormat
    rw [if_neg hid]
  · unfold avfGetDeviceFormat
    rw [if_neg hid]
  · constructor
    · intro h
      by_contra hne
      unfold controllerGetDeviceFormat at h
      rw [if_neg hne] at h
      exact absurd h (by simp)
    · intro h
      unfold controllerGetDeviceFormat
      rw [if_pos h]
  · intro h
    unfold controllerGetDeviceFormat
    rw [if_neg h]

/-- Witness for C10 at a concrete non-system id and the sentinel format. -/
theorem format_failure_zero_sentinel_and_throw_witness :
    ("BuiltInSpeaker" ≠ "system")
    ∧ avfGetDeviceFormat "BuiltInSpeaker" none = ⟨0, 0, 0, 0⟩ :=
  ⟨by decide,
    (format_failure_zero_sentinel_and_throw "BuiltInSpeaker" ⟨0, 0, 0, 0⟩ (by decide)).2.1⟩
